import Mathlib

set_option maxRecDepth 100000

/-!
Verification development for the querido-diario-data-processing repository.

We shallowly embed the segmentation pipeline
(`segmentation/segmenters/go_associacao_municipios.py`), the themed-excerpt
extraction pipeline (`tasks/gazette_themed_excerpts_extraction.py`), the
text-extraction orchestration (`tasks/gazette_text_extraction.py`) and the
text utilities (`tasks/utils/text.py`) as executable Lean definitions, and
prove or refute the specification's claims about them.

External collaborators (the spaCy NER model, the langchain text splitter, the
search backend) are modelled as explicit function parameters: the Python code
calls them but their behaviour is not part of this repository's source.
Machine integers are modelled as `Nat` with explicit reduction modulo `2^32`
(and `2^64` for the MD5 length field).
-/

/-! ## Python string primitives

Python-compatible string helpers used by the embedded code. Python's
`str.strip` / `re \s` whitespace class is modelled over its ASCII members,
which are the only ones the embedded texts use. -/

/-- ASCII whitespace as recognised by Python `str.strip` and the regex
class `\s`: space, tab, newline, carriage return, vertical tab, form feed. -/
def isPySpace (c : Char) : Bool :=
  c == ' ' || c == '\t' || c == '\n' || c == '\x0d' || c == '\x0b' || c == '\x0c'

/-- Python `str.lstrip()`. -/
def pyLStrip (s : String) : String :=
  String.mk (s.data.dropWhile isPySpace)

/-- Python `str.rstrip()`. -/
def pyRStrip (s : String) : String :=
  String.mk ((s.data.reverse.dropWhile isPySpace).reverse)

/-- Python `str.strip()`. -/
def pyStrip (s : String) : String :=
  pyRStrip (pyLStrip s)

/-- Python `text.split("\n", maxsplit=1)[0]`: the prefix before the first
newline (the whole string when it has no newline). -/
def firstLine (s : String) : String :=
  String.mk (s.data.takeWhile (fun c => c != '\n'))

/-- Worker for the substring test: does `needle` occur (contiguously) in
the haystack? -/
def listContainsSub (needle : List Char) : List Char → Bool
  | [] => needle.isEmpty
  | a :: t => needle.isPrefixOf (a :: t) || listContainsSub needle t

/-- Python's substring test `needle in hay`: `needle` occurs contiguously
in `hay` (an empty needle always occurs). -/
def strContains (hay needle : String) : Bool :=
  listContainsSub needle.data hay.data

/-- Python `s[-n:]`: the last `n` characters (the whole string when it is
shorter than `n`). -/
def lastChars (s : String) (n : Nat) : String :=
  String.mk (s.data.drop (s.data.length - n))

/-- Fuel-driven worker for `clean_extra_whitespaces`; the fuel is the length
of the list, and every step consumes at least one character. -/
def collapseWsAux : Nat → List Char → List Char
  | _, [] => []
  | 0, l => l
  | fuel + 1, c :: rest =>
    if isPySpace c then ' ' :: collapseWsAux fuel (rest.dropWhile isPySpace)
    else c :: collapseWsAux fuel rest

/-- `tasks/utils/text.py`, `clean_extra_whitespaces`:
`re.sub(r"\s+", " ", text)` — every maximal run of whitespace becomes a
single space. -/
def clean_extra_whitespaces (s : String) : String :=
  String.mk (collapseWsAux s.data.length s.data)

/-! ## Byte-level helpers and MD5

`tasks/utils/text.py`'s `get_checksum` and
`gazette_themed_excerpts_extraction.py`'s `generate_excerpt_id` both hash
with `hashlib.md5` over the UTF-8 encoding of a string. We implement MD5
(RFC 1321) executably over `List Nat` bytes. `get_checksum` reads the
encoded bytes through a `BytesIO` in 8096-byte slices, which hashes exactly
the same byte sequence as hashing it in one piece. -/

/-- UTF-8 encoding of one scalar value, as Python `str.encode("UTF-8")`
produces it. -/
def utf8EncodeChar (c : Char) : List Nat :=
  let n := c.toNat
  if n < 128 then [n]
  else if n < 2048 then [192 ||| (n >>> 6), 128 ||| (n &&& 63)]
  else if n < 65536 then
    [224 ||| (n >>> 12), 128 ||| ((n >>> 6) &&& 63), 128 ||| (n &&& 63)]
  else
    [240 ||| (n >>> 18), 128 ||| ((n >>> 12) &&& 63),
     128 ||| ((n >>> 6) &&& 63), 128 ||| (n &&& 63)]

/-- UTF-8 bytes of a string. -/
def utf8Bytes (s : String) : List Nat :=
  s.data.flatMap utf8EncodeChar

/-- Truncation to a 32-bit word. -/
def w32 (n : Nat) : Nat := n % 4294967296

/-- 32-bit left rotation (argument assumed `< 2^32`, shift in `1..31`). -/
def rotl32 (x s : Nat) : Nat :=
  ((x <<< s) ||| (x >>> (32 - s))) % 4294967296

/-- 32-bit bitwise complement. -/
def compl32 (x : Nat) : Nat := x ^^^ 4294967295

/-- Fuel-driven worker for `chunksOf`. -/
def chunksOfAux (n : Nat) : Nat → List α → List (List α)
  | _, [] => []
  | 0, l => [l]
  | fuel + 1, a :: l => (a :: l.take n) :: chunksOfAux n fuel (l.drop n)

/-- Split a list into consecutive chunks of `n + 1` elements (the last chunk
may be shorter). -/
def chunksOf (n : Nat) (l : List α) : List (List α) :=
  chunksOfAux n l.length l

/-- `k` little-endian bytes of `n`. -/
def natLEBytes (n k : Nat) : List Nat :=
  (List.range k).map (fun i => n / 256 ^ i % 256)

/-- MD5 padding: `0x80`, zeros to 56 mod 64, then the bit length modulo
`2^64` as 8 little-endian bytes. -/
def md5Pad (msg : List Nat) : List Nat :=
  msg ++ [128] ++ List.replicate ((120 - (msg.length + 1) % 64) % 64) 0
      ++ natLEBytes (8 * msg.length % 18446744073709551616) 8

/-- The 64 MD5 round constants `floor(abs(sin(i+1)) * 2^32)`. -/
def md5K : List Nat :=
  [3614090360, 3905402710, 606105819, 3250441966, 4118548399, 1200080426,
   2821735955, 4249261313, 1770035416, 2336552879, 4294925233, 2304563134,
   1804603682, 4254626195, 2792965006, 1236535329, 4129170786, 3225465664,
   643717713, 3921069994, 3593408605, 38016083, 3634488961, 3889429448,
   568446438, 3275163606, 4107603335, 1163531501, 2850285829, 4243563512,
   1735328473, 2368359562, 4294588738, 2272392833, 1839030562, 4259657740,
   2763975236, 1272893353, 4139469664, 3200236656, 681279174, 3936430074,
   3572445317, 76029189, 3654602809, 3873151461, 530742520, 3299628645,
   4096336452, 1126891415, 2878612391, 4237533241, 1700485571, 2399980690,
   4293915773, 2240044497, 1873313359, 4264355552, 2734768916, 1309151649,
   4149444226, 3174756917, 718787259, 3951481745]

/-- The 64 MD5 per-round left-rotation amounts. -/
def md5S : List Nat :=
  [7, 12, 17, 22, 7, 12, 17, 22, 7, 12, 17, 22, 7, 12, 17, 22,
   5, 9, 14, 20, 5, 9, 14, 20, 5, 9, 14, 20, 5, 9, 14, 20,
   4, 11, 16, 23, 4, 11, 16, 23, 4, 11, 16, 23, 4, 11, 16, 23,
   6, 10, 15, 21, 6, 10, 15, 21, 6, 10, 15, 21, 6, 10, 15, 21]

/-- The MD5 nonlinear function of round `i`. -/
def md5F (i b c d : Nat) : Nat :=
  if i < 16 then (b &&& c) ||| (compl32 b &&& d)
  else if i < 32 then (d &&& b) ||| (compl32 d &&& c)
  else if i < 48 then b ^^^ c ^^^ d
  else c ^^^ (b ||| compl32 d)

/-- The MD5 message-word index of round `i`. -/
def md5G (i : Nat) : Nat :=
  if i < 16 then i
  else if i < 32 then (5 * i + 1) % 16
  else if i < 48 then (3 * i + 5) % 16
  else (7 * i) % 16

/-- Decode a 64-byte block into 16 little-endian 32-bit words. -/
def blockWords (block : List Nat) : List Nat :=
  (chunksOf 3 block).map (fun c =>
    match c with
    | [b0, b1, b2, b3] => b0 + 256 * b1 + 65536 * b2 + 16777216 * b3
    | _ => 0)

/-- One MD5 compression step over a 16-word block. -/
def md5ProcessBlock (st : Nat × Nat × Nat × Nat) (M : List Nat) :
    Nat × Nat × Nat × Nat :=
  let (a0, b0, c0, d0) := st
  let step := fun (acc : Nat × Nat × Nat × Nat) (i : Nat) =>
    let (a, b, c, d) := acc
    let tmp := w32 (a + md5F i b c d + md5K.getD i 0 + M.getD (md5G i) 0)
    (d, w32 (b + rotl32 tmp (md5S.getD i 0)), b, c)
  let (a, b, c, d) := (List.range 64).foldl step (a0, b0, c0, d0)
  (w32 (a0 + a), w32 (b0 + b), w32 (c0 + c), w32 (d0 + d))

/-- The four MD5 state words of a byte message. -/
def md5Words (bytes : List Nat) : Nat × Nat × Nat × Nat :=
  (chunksOf 63 (md5Pad bytes)).foldl
    (fun st blk => md5ProcessBlock st (blockWords blk))
    (1732584193, 4023233417, 2562383102, 271733878)

/-- A lowercase hexadecimal digit. -/
def hexDigit (n : Nat) : Char :=
  if n < 10 then Char.ofNat (48 + n) else Char.ofNat (87 + n)

/-- Lowercase hex rendering of a byte list. -/
def bytesToHex (bs : List Nat) : String :=
  String.mk (bs.flatMap (fun b => [hexDigit (b / 16 % 16), hexDigit (b % 16)]))

/-- `hashlib.md5(bytes).hexdigest()`. -/
def md5Hex (bytes : List Nat) : String :=
  let (a, b, c, d) := md5Words bytes
  bytesToHex (natLEBytes a 4 ++ natLEBytes b 4 ++ natLEBytes c 4 ++ natLEBytes d 4)

/-- `tasks/utils/text.py`, `get_checksum`: the MD5 hex digest of the UTF-8
encoding of the text. -/
def get_checksum (source_text : String) : String :=
  md5Hex (utf8Bytes source_text)

example : get_checksum "A simple text" = "ef313f200597d0a1749533ba6aeb002e" := by
  decide

/-! ## Data model

Structures mirroring the Python dictionaries. A gazette dictionary carries
the metadata listed in the spec's `GazetteDocument`; `GazetteSegment(**{...})`
produces a record of the same shape, so segments reuse the `Gazette`
structure. -/

/-- One entry of the territory registry (`self.territories`), as accessed by
the segmenter: `state_code`, `territory_name`, `id`. -/
structure TerritoryRec where
  state_code : String
  territory_name : String
  id : String
deriving Repr, DecidableEq

/-- One named entity recognised by the NER model in a chunk, in textual
order inside `doc.ents`: its label (`ent.label_`) and surface text
(`ent.text`). -/
structure Entity where
  label : String
  text : String
deriving Repr, DecidableEq

/-- A gazette document dictionary (also the shape of a produced segment). -/
structure Gazette where
  id : String
  date : String
  created_at : String
  edition_number : String
  is_extra_edition : Bool
  power : String
  scraped_at : String
  state_code : String
  territory_id : String
  territory_name : String
  url : String
  file_url : String
  file_path : String
  file_raw_txt : String
  file_checksum : String
  source_text : String
  is_fragmented : Bool
  processed : Bool
deriving Repr, DecidableEq

/-! ## Territory resolution (`go_associacao_municipios.py`)

The spaCy pipeline `self.nlp` is external: a chunk's recognised entities are
passed in as a `ner : String → List Entity` parameter giving `doc.ents` in
textual order. -/

/-- The match the inner loop of `find_municipios` produces for one entity:
for a `LOC` entity, the first registry territory whose `state_code` equals
the requested one and whose `territory_name` is a substring of the entity
text (the loop breaks at the first hit); `none` for other labels or when no
territory matches. -/
def matchEntity (territories : List TerritoryRec) (state_code : String)
    (ent : Entity) : Option TerritoryRec :=
  if ent.label == "LOC" then
    territories.find? (fun t =>
      t.state_code == state_code && strContains ent.text t.territory_name)
  else none

/-- `GOAssociacaoMunicipiosSegmenter.find_municipios`: walk the recognised
entities in reverse (`reversed(doc.ents)`) and collect the registry match of
each matching `LOC` entity, in that reverse order. -/
def find_municipios (territories : List TerritoryRec) (ents : List Entity)
    (state_code : String) : List TerritoryRec :=
  ents.reverse.filterMap (matchEntity territories state_code)

/-- The association fallback name used by `process_segment`. -/
def associationName : String := "Associação dos Municípios de Goiás"

/-- The territory-resolution part of
`split_text_by_territory.process_segment`: `uf` starts as `"GO"`; when
`find_municipios` found anything, the name and state code of
`municipios[-1]` (the last element of the reverse-scan list) are used,
otherwise the association fallback. Returns `(territory_name, uf)`. -/
def resolveTerritory (territories : List TerritoryRec) (ents : List Entity) :
    String × String :=
  let municipios := find_municipios territories ents "GO"
  match municipios.getLast? with
  | some m => (m.territory_name, m.state_code)
  | none => (associationName, "GO")

/-- Modelled from the spec: `get_territory_slug` is imported from
`tasks.utils`, which is not under `src/` except for `text.py`. Per the
spec's data model a Territory carries a slug determined by its canonical
name and jurisdiction code; we model the slug as the deterministic pair
encoding `state_code ++ "-" ++ territory_name`. -/
def get_territory_slug (territory_name state_code : String) : String :=
  state_code ++ "-" ++ territory_name

/-- The per-chunk result of `split_text_by_territory.process_segment`:
the resolved territory slug and the chunk text prefixed with the shared
header (`f"{ama_header}\n{segment_text}"`). -/
def process_segment (territories : List TerritoryRec)
    (ner : String → List Entity) (ama_header segment_text : String) :
    String × String :=
  let (territory_name, uf) := resolveTerritory territories (ner segment_text)
  (get_territory_slug territory_name uf, ama_header ++ "\n" ++ segment_text)

/-- Append `v` to the list bound to key `k`, inserting the key at the end
when absent: the effect of `dict.setdefault(k, []).append(v)` on a Python
dict modelled as an insertion-ordered association list. -/
def insertAppend (m : List (String × List String)) (k : String) (v : String) :
    List (String × List String) :=
  match m with
  | [] => [(k, [v])]
  | (k', vs) :: rest =>
    if k' == k then (k', vs ++ [v]) :: rest
    else (k', vs) :: insertAppend rest k v

/-- `GOAssociacaoMunicipiosSegmenter.split_text_by_territory`. The
`ama_header` is the first line of the left-stripped text, right-stripped
(`text.lstrip().split("\n", maxsplit=1)[0].rstrip()`); the `clean_text`
computed next is never used. The langchain `RecursiveCharacterTextSplitter`
is external and passed in as `splitter`; its output is the `raw_segments`
list. Each chunk is resolved and its header-prefixed text appended to its
slug's list. The Python threaded `setdefault` makes the dict's key-insertion
order scheduler dependent while each key's list is deterministic; we model
keys in first-occurrence order. -/
def split_text_by_territory (territories : List TerritoryRec)
    (ner : String → List Entity) (splitter : String → List String)
    (text : String) : List (String × List String) :=
  let ama_header := pyRStrip (firstLine (pyLStrip text))
  let raw_segments := splitter text
  let results := raw_segments.map (process_segment territories ner ama_header)
  results.foldl (fun m r => insertAppend m r.1 r.2) []

/-- The territory metadata `build_segment` reads from the registry. -/
structure TerritoryData where
  territory_name : String
  id : String
deriving Repr, DecidableEq

/-- Modelled from the spec: `get_territory_data` is imported from
`tasks.utils`, which is not under `src/` except for `text.py`. Per the spec
the registry is queryable by slug and the lookup "fails with a LookupFailure
if the slug is absent from the registry". -/
def get_territory_data (slug : String) (territories : List TerritoryRec) :
    Except String TerritoryData :=
  match territories.find? (fun t =>
      get_territory_slug t.territory_name t.state_code == slug) with
  | some t => .ok ⟨t.territory_name, t.id⟩
  | none => .error ("LookupFailure: " ++ slug)

/-- `GOAssociacaoMunicipiosSegmenter.build_segment`: look the slug up in the
registry (propagating its LookupFailure), then build the segment record by
overriding the parent gazette's fields: `is_fragmented = True`,
`processed = True`, `file_checksum = get_checksum(segment_text)`,
`source_text = segment_text.strip()`, and the territory name and id from
the registry. -/
def build_segment (territories : List TerritoryRec)
    (territory_slug segment_text : String) (gazette : Gazette) :
    Except String Gazette :=
  match get_territory_data territory_slug territories with
  | .error e => .error e
  | .ok td => .ok { gazette with
      is_fragmented := true
      processed := true
      file_checksum := get_checksum segment_text
      source_text := pyStrip segment_text
      territory_name := td.territory_name
      territory_id := td.id }

/-- The fan-in loop `for future in futures: out.append(future.result())`
over submission-ordered futures of `f`: collect every result in order, and
raise the exception of the first failing job (in submission order) when one
fails. -/
def collectResults (f : α → Except ε β) : List α → Except ε (List β)
  | [] => .ok []
  | a :: l =>
    match f a with
    | .error e => .error e
    | .ok b =>
      match collectResults f l with
      | .error e => .error e
      | .ok bs => .ok (b :: bs)

/-- The `(territory_slug, segment_text)` pairs submitted to the builder
pool by `get_gazette_segments`: the comprehension iterates every text of
every slug's list. -/
def segment_jobs (territories : List TerritoryRec)
    (ner : String → List Entity) (splitter : String → List String)
    (text : String) : List (String × String) :=
  (split_text_by_territory territories ner splitter text).flatMap
    (fun p => p.2.map (fun t => (p.1, t)))

/-- `GOAssociacaoMunicipiosSegmenter.get_gazette_segments`: build one
segment per `(territory_slug, segment_text)` pair and collect the results
with an unprotected `future.result()` loop, so the first `build_segment`
failure propagates out of the method. -/
def get_gazette_segments (territories : List TerritoryRec)
    (ner : String → List Entity) (splitter : String → List String)
    (gazette : Gazette) : Except String (List Gazette) :=
  collectResults (fun j => build_segment territories j.1 j.2 gazette)
    (segment_jobs territories ner splitter gazette.source_text)

/-! ## Batch orchestration (`tasks/gazette_text_extraction.py`)

The storage download/upload, URL construction, the raw-text extractor and
the database update are external boundaries; the gazette arrives with its
`source_text` already set, and indexing a segment is modelled as producing
its `file_checksum` id. -/

/-- `gazette_type_is_aggregated`:
`str(gazette["territory_id"][-5:]).strip() == "00000"`. -/
def gazette_type_is_aggregated (gazette : Gazette) : Bool :=
  pyStrip (lastChars gazette.territory_id 5) == "00000"

/-- `try_process_gazette_file`, restricted to its segmentation/indexing
logic: an aggregated gazette is segmented — any exception escaping
`get_gazette_segments` (such as a territory LookupFailure raised inside
`build_segment`) propagates out of this function — and each produced
segment is indexed under its `file_checksum`; a non-aggregated gazette is
indexed under its own checksum. Returns the indexed document ids. -/
def try_process_gazette_file (territories : List TerritoryRec)
    (ner : String → List Entity) (splitter : String → List String)
    (gazette : Gazette) : Except String (List String) :=
  if gazette_type_is_aggregated gazette then
    match get_gazette_segments territories ner splitter gazette with
    | .error e => .error e
    | .ok segments => .ok (segments.map (fun s => s.file_checksum))
  else .ok [gazette.file_checksum]

/-- `extract_text_from_gazettes`: every gazette is processed inside
`process_gazette`, whose `try/except` turns any exception into an empty
contribution (logged), and the fan-in loop catches any remaining per-future
exception as well, so the entry point itself never raises and returns the
concatenated ids of the gazettes that succeeded. The `as_completed` fan-in
order is scheduler dependent; we model submission order. -/
def extract_text_from_gazettes (territories : List TerritoryRec)
    (ner : String → List Entity) (splitter : String → List String)
    (gazettes : List Gazette) : List String :=
  gazettes.flatMap (fun g =>
    match try_process_gazette_file territories ner splitter g with
    | .ok ids => ids
    | .error _ => [])

/-! ## Themed excerpts (`tasks/gazette_themed_excerpts_extraction.py`)

The search backend is external: `index.analyze` is a parameter
`analyze : String → List String` returning the token strings of
`result["tokens"]`, and the search itself is a parameter returning the
matched documents with their highlights. -/

/-- A span-level search query, mirroring the nested dictionaries the query
builder assembles (`span_term` / `span_near` / `span_or`). Every
`span_term` targets the field `source_text.with_stopwords`. -/
inductive SpanQuery where
  | spanTerm (field : String) (token : String)
  | spanNear (clauses : List SpanQuery) (slop : Nat) (in_order : Bool)
  | spanOr (clauses : List SpanQuery)
deriving Repr

/-- The highlight request attached to the query. -/
structure HighlightSpec where
  htype : String
  fragment_size : Nat
  number_of_fragments : Nat
  pre_tags : List String
  post_tags : List String
deriving Repr, DecidableEq

/-- The built search request: the `bool.must` clauses, the `bool.filter`
id set, the result `size`, and the highlight request on the field
`source_text.with_stopwords`. -/
structure EsQuery where
  must : List SpanQuery
  filter_ids : List String
  size : Nat
  highlight_field : String
  highlight : HighlightSpec
deriving Repr

/-- A themed query: its `title` and the 3-level `term_sets` structure
(macro-sets of term-sets of synonym terms). -/
structure ThemeQuery where
  title : String
  term_sets : List (List (List String))
deriving Repr

/-- `get_es_query_from_themed_query.process_term_set`: each synonym term is
tokenized and becomes a `span_near` phrase with `slop = 0`,
`in_order = True` over its tokens; the phrases are combined in a
`span_or`. -/
def process_term_set (analyze : String → List String)
    (term_set : List String) : SpanQuery :=
  .spanOr (term_set.map (fun term =>
    .spanNear ((analyze term).map (fun tok =>
      .spanTerm "source_text.with_stopwords" tok)) 0 true))

/-- `get_es_query_from_themed_query.process_macro_set`: the term-set blocks
of one macro-set are combined in a `span_near` with `slop = 20`,
`in_order = False`. The threaded `as_completed` fan-in makes the clause
order scheduler dependent; we model submission order. -/
def process_macro_set (analyze : String → List String)
    (macro_set : List (List String)) : SpanQuery :=
  .spanNear (macro_set.map (process_term_set analyze)) 20 false

/-- `get_es_query_from_themed_query`: the macro-set blocks are combined in
a `span_or` appended to `bool.must`; the query filters to the supplied
gazette ids, asks for `size = 10` results and for up to 10 highlight
fragments of 2000 characters on `source_text.with_stopwords` with empty
`pre_tags`/`post_tags`. -/
def get_es_query_from_themed_query (analyze : String → List String)
    (query : ThemeQuery) (gazette_ids : List String) : EsQuery :=
  { must := [.spanOr (query.term_sets.map (process_macro_set analyze))]
    filter_ids := gazette_ids
    size := 10
    highlight_field := "source_text.with_stopwords"
    highlight :=
      { htype := "unified"
        fragment_size := 2000
        number_of_fragments := 10
        pre_tags := [""]
        post_tags := [""] } }

/-- One search hit: its `_source` gazette and the
`highlight["source_text.with_stopwords"]` fragment list. -/
structure HighlightDoc where
  gazette : Gazette
  highlights : List String
deriving Repr, DecidableEq

/-- `preprocess_excerpt`: whitespace normalisation of a raw fragment. -/
def preprocess_excerpt (excerpt : String) : String :=
  clean_extra_whitespaces excerpt

/-- `generate_excerpt_id`: the matched document's `file_checksum`, an
underscore, and the MD5 hex digest of the raw highlighted fragment
(`hash.update(excerpt.encode())` before any preprocessing). -/
def generate_excerpt_id (excerpt : String) (gazette : Gazette) : String :=
  gazette.file_checksum ++ "_" ++ md5Hex (utf8Bytes excerpt)

/-- An excerpt record as assembled by
`get_excerpts_from_gazettes_with_themed_query.process_document`. -/
structure ExcerptRecord where
  excerpt : String
  excerpt_subthemes : List String
  excerpt_id : String
  source_index_id : String
  source_created_at : String
  source_database_id : String
  source_date : String
  source_edition_number : String
  source_file_raw_txt : String
  source_is_extra_edition : Bool
  source_is_fragmented : Bool
  source_file_checksum : String
  source_file_path : String
  source_file_url : String
  source_power : String
  source_processed : Bool
  source_scraped_at : String
  source_state_code : String
  source_territory_id : String
  source_territory_name : String
  source_url : String
deriving Repr, DecidableEq, Inhabited

/-- `get_excerpts_from_gazettes_with_themed_query.process_document`: one
record per highlighted fragment, storing the preprocessed fragment as
`excerpt`, the query title as its subtheme, the id from the raw fragment,
and the copied source fields. -/
def process_document (query_title : String) (document : HighlightDoc) :
    List ExcerptRecord :=
  document.highlights.map (fun excerpt =>
    { excerpt := preprocess_excerpt excerpt
      excerpt_subthemes := [query_title]
      excerpt_id := generate_excerpt_id excerpt document.gazette
      source_index_id := document.gazette.file_checksum
      source_created_at := document.gazette.created_at
      source_database_id := document.gazette.id
      source_date := document.gazette.date
      source_edition_number := document.gazette.edition_number
      source_file_raw_txt := document.gazette.file_raw_txt
      source_is_extra_edition := document.gazette.is_extra_edition
      source_is_fragmented := document.gazette.is_fragmented
      source_file_checksum := document.gazette.file_checksum
      source_file_path := document.gazette.file_path
      source_file_url := document.gazette.file_url
      source_power := document.gazette.power
      source_processed := document.gazette.processed
      source_scraped_at := document.gazette.scraped_at
      source_state_code := document.gazette.state_code
      source_territory_id := document.gazette.territory_id
      source_territory_name := document.gazette.territory_name
      source_url := document.gazette.url })

/-- `get_excerpts_from_gazettes_with_themed_query`: build the query for one
id batch, run the external search, and flatten the per-document records
(fan-in modelled in submission order; per-document failures are caught and
skipped by the Python loop, and our per-document processing is total). -/
def get_excerpts_from_gazettes_with_themed_query
    (search : EsQuery → List HighlightDoc) (analyze : String → List String)
    (query : ThemeQuery) (gazette_ids : List String) : List ExcerptRecord :=
  let es_query := get_es_query_from_themed_query analyze query gazette_ids
  (search es_query).flatMap (process_document query.title)

/-- Modelled from the spec: `batched` is imported from `tasks.utils`, which
is not under `src/` except for `text.py`. Following its only call site,
`batched(gazette_ids, 500)`, it yields the successive batches of at most
`n` ids; defined here for the positive `n` the code uses. -/
def batched (l : List α) (n : Nat) : List (List α) :=
  chunksOf (n - 1) l

/-- `extract_themed_excerpts_from_gazettes.process_theme_query` for one
theme query: for every 500-id batch, every excerpt whose normalised text is
shorter than 200 characters is skipped (`continue`), every other excerpt is
indexed into the theme's index under its `excerpt_id` and that id appended
to the returned list. Returns the pair of the indexed records (the
`index.index_document` calls, in order) and the returned ids. -/
def process_theme_query (search : EsQuery → List HighlightDoc)
    (analyze : String → List String) (query : ThemeQuery)
    (gazette_ids : List String) : List ExcerptRecord × List String :=
  let excerpts := (batched gazette_ids 500).flatMap (fun batch =>
    get_excerpts_from_gazettes_with_themed_query search analyze query batch)
  let kept := excerpts.filter (fun e => !(e.excerpt.length < 200))
  (kept, kept.map (fun e => e.excerpt_id))

/-- The search requests `process_theme_query` issues: one per 500-id
batch. -/
def theme_query_requests (analyze : String → List String)
    (query : ThemeQuery) (gazette_ids : List String) : List EsQuery :=
  (batched gazette_ids 500).map
    (get_es_query_from_themed_query analyze query)

/-! ## Concrete example data shared by the claim instances -/

/-- Registry entry for Goiânia. -/
def exGoiania : TerritoryRec := ⟨"GO", "Goiânia", "5208707"⟩

/-- Registry entry for Anápolis. -/
def exAnapolis : TerritoryRec := ⟨"GO", "Anápolis", "5201108"⟩

/-- A two-town registry for the state GO. -/
def exRegistry : List TerritoryRec := [exGoiania, exAnapolis]

/-- A stub recogniser: each chunk yields one `LOC` entity spanning the whole
chunk text. -/
def exNer : String → List Entity := fun s => [⟨"LOC", s⟩]

/-- An aggregated gazette (territory id ends in the `00000` sentinel). -/
def exGazette : Gazette :=
  { id := "42"
    date := "2024-05-02"
    created_at := "2024-05-02T00:00:00"
    edition_number := "123"
    is_extra_edition := false
    power := "executive"
    scraped_at := "2024-05-02T01:00:00"
    state_code := "GO"
    territory_id := "5200000"
    territory_name := "AMA"
    url := "http://example.test/u"
    file_url := "http://example.test/f"
    file_path := "go/2024/d.pdf"
    file_raw_txt := "http://example.test/f.txt"
    file_checksum := "abc123"
    source_text := "AMA HEADER\ncorpo"
    is_fragmented := false
    processed := false }

/-- The same gazette with another date but the same checksum. -/
def exGazette2 : Gazette := { exGazette with date := "2024-06-01" }

/-- A non-aggregated gazette (suffix `08707`). -/
def exPlainGazette : Gazette :=
  { exGazette with territory_id := "5208707", file_checksum := "plain9" }

/-! ## Helper lemmas on the fan-in collector and the grouping fold -/

/-- A successful fan-in collection has one result per submitted job. -/
theorem collectResults_ok_length (f : α → Except ε β) (l : List α)
    (bs : List β) (h : collectResults f l = .ok bs) : bs.length = l.length := by
  induction l generalizing bs with
  | nil =>
    simp only [collectResults, Except.ok.injEq] at h
    simp [← h]
  | cons a l ih =>
    simp only [collectResults] at h
    cases hfa : f a with
    | error e => rw [hfa] at h; exact absurd h (by simp)
    | ok b =>
      rw [hfa] at h
      cases hrec : collectResults f l with
      | error e => rw [hrec] at h; exact absurd h (by simp)
      | ok bs' =>
        rw [hrec] at h
        simp only [Except.ok.injEq] at h
        subst h
        simp [ih bs' hrec]

/-- A successful fan-in collection maps jobs to results: any per-element
consequence of `f a = .ok b` transports to the result list. -/
theorem collectResults_ok_map (f : α → Except ε β) (u : β → γ) (v : α → γ)
    (hf : ∀ a b, f a = .ok b → u b = v a) (l : List α) (bs : List β)
    (h : collectResults f l = .ok bs) : bs.map u = l.map v := by
  induction l generalizing bs with
  | nil =>
    simp only [collectResults, Except.ok.injEq] at h
    simp [← h]
  | cons a l ih =>
    simp only [collectResults] at h
    cases hfa : f a with
    | error e => rw [hfa] at h; exact absurd h (by simp)
    | ok b =>
      rw [hfa] at h
      cases hrec : collectResults f l with
      | error e => rw [hrec] at h; exact absurd h (by simp)
      | ok bs' =>
        rw [hrec] at h
        simp only [Except.ok.injEq] at h
        subst h
        simp [hf a b hfa, ih bs' hrec]

/-- All texts stored in the grouping map, in group order. -/
def allTexts (m : List (String × List String)) : List String :=
  m.flatMap (fun p => p.2)

/-- `allTexts` on an empty map. -/
theorem allTexts_nil : allTexts [] = [] := rfl

/-- `allTexts` on a cons cell. -/
theorem allTexts_cons (k : String) (vs : List String)
    (rest : List (String × List String)) :
    allTexts ((k, vs) :: rest) = vs ++ allTexts rest := by
  simp [allTexts]

/-- Appending one text to its group permutes the map's texts by adding the
new text. -/
theorem allTexts_insertAppend (m : List (String × List String))
    (k : String) (v : String) :
    (allTexts (insertAppend m k v)).Perm (allTexts m ++ [v]) := by
  induction m with
  | nil => simp [insertAppend, allTexts]
  | cons p rest ih =>
    obtain ⟨k', vs⟩ := p
    simp only [insertAppend]
    by_cases hk : (k' == k) = true
    · rw [if_pos hk]
      rw [allTexts_cons, allTexts_cons]
      have h1 : (vs ++ [v]) ++ allTexts rest = vs ++ ([v] ++ allTexts rest) := by
        simp [List.append_assoc]
      rw [h1]
      have h2 : ([v] ++ allTexts rest).Perm (allTexts rest ++ [v]) :=
        List.perm_append_comm
      have h3 := List.Perm.append_left vs h2
      have h4 : vs ++ (allTexts rest ++ [v]) = (vs ++ allTexts rest) ++ [v] := by
        simp [List.append_assoc]
      rw [h4] at h3
      exact h3
    · rw [if_neg hk]
      rw [allTexts_cons, allTexts_cons]
      have h3 := List.Perm.append_left vs ih
      have h4 : vs ++ (allTexts rest ++ [v]) = (vs ++ allTexts rest) ++ [v] := by
        simp [List.append_assoc]
      rw [h4] at h3
      exact h3

/-- Folding the per-chunk results into the grouping map permutes their
texts. -/
theorem allTexts_foldl_insertAppend (results : List (String × String)) :
    ∀ m0 : List (String × List String),
      (allTexts (results.foldl (fun m r => insertAppend m r.1 r.2) m0)).Perm
        (allTexts m0 ++ results.map Prod.snd) := by
  induction results with
  | nil => intro m0; simp
  | cons r rs ih =>
    intro m0
    simp only [List.foldl_cons, List.map_cons]
    have h1 := ih (insertAppend m0 r.1 r.2)
    have h2 := List.Perm.append_right (rs.map Prod.snd)
      (allTexts_insertAppend m0 r.1 r.2)
    have h3 := h1.trans h2
    have h4 : (allTexts m0 ++ [r.2]) ++ rs.map Prod.snd
        = allTexts m0 ++ r.2 :: rs.map Prod.snd := by
      simp [List.append_assoc]
    rw [h4] at h3
    exact h3

/-- The `(slug, text)` job list of a grouping map projects to its texts. -/
theorem jobs_map_snd (m : List (String × List String)) :
    ((m.flatMap (fun p => p.2.map (fun t => (p.1, t)))).map Prod.snd) =
      allTexts m := by
  induction m with
  | nil => simp [allTexts]
  | cons p rest ih =>
    obtain ⟨k, vs⟩ := p
    rw [allTexts_cons]
    simp only [List.flatMap_cons, List.map_append, List.map_map]
    rw [ih]
    congr 1
    simp

/-! ## Claim C1: territory resolution tie-break -/

/-- Two location entities in textual order: Goiânia is mentioned first,
Anápolis last. -/
def c1Ents : List Entity :=
  [⟨"LOC", "Prefeitura Municipal de Goiânia"⟩,
   ⟨"LOC", "Prefeitura Municipal de Anápolis"⟩]

/-- C1: the claim says the resolver returns the territory of the first
registry match found during the reverse scan, i.e. the matching location
mention closest to the end of the chunk. On this input the first match of
the reverse scan is Anápolis (the last mention), yet the code resolves to
Goiânia: `find_municipios` collects all matches of the reverse scan and
`process_segment` reads `municipios[-1]`, the match of the mention closest
to the beginning, cancelling the reversal. -/
theorem c1_reverse_scan_selection :
    (find_municipios exRegistry c1Ents "GO").head? = some exAnapolis ∧
    resolveTerritory exRegistry c1Ents = ("Goiânia", "GO") ∧
    exAnapolis.territory_name ≠ "Goiânia" := by decide

/-! ## Common field lemma for built segments -/

/-- Fields a successfully built segment always carries, read off
`build_segment`: checksum of the untrimmed text, trimmed text stored, and
the unconditional `is_fragmented`/`processed` flags. -/
theorem build_segment_ok_fields (territories : List TerritoryRec)
    (slug txt : String) (g s : Gazette)
    (h : build_segment territories slug txt g = .ok s) :
    s.file_checksum = get_checksum txt ∧ s.source_text = pyStrip txt ∧
    s.is_fragmented = true ∧ s.processed = true := by
  unfold build_segment at h
  cases hd : get_territory_data slug territories with
  | error e => rw [hd] at h; exact absurd h (by simp)
  | ok td =>
    rw [hd] at h
    simp only [Except.ok.injEq] at h
    subst h
    simp

/-! ## Claim C2: one segment per group vs one segment per chunk -/

/-- A splitter producing two chunks that both resolve to Goiânia. -/
def c2Splitter : String → List String :=
  fun _ => ["bloco um Goiânia fim", "bloco dois Goiânia fim"]

/-- C2 counterexample: both chunks resolve to the single slug
`GO-Goiânia`, so the claim predicts exactly one segment; the code returns
two, one per chunk. -/
theorem c2_counterexample :
    (get_gazette_segments exRegistry exNer c2Splitter exGazette).toOption.map
      List.length = some 2 ∧
    ((split_text_by_territory exRegistry exNer c2Splitter
        exGazette.source_text).map Prod.fst) = ["GO-Goiânia"] := by decide

/-- C2 (amended): the segmenter returns exactly one segment per chunk, not
per territory group: the segment count equals the chunk count, each
segment's stored text is the trimmed text of its single job, and the job
texts are (up to the grouping permutation) the chunks each prefixed with
the shared header and a newline — no group concatenation, no separator. -/
theorem c2_one_segment_per_chunk (territories : List TerritoryRec)
    (ner : String → List Entity) (splitter : String → List String)
    (gazette : Gazette) (segs : List Gazette)
    (h : get_gazette_segments territories ner splitter gazette = .ok segs) :
    segs.length = (splitter gazette.source_text).length ∧
    segs.map (fun s => s.source_text) =
      (segment_jobs territories ner splitter gazette.source_text).map
        (fun j => pyStrip j.2) ∧
    ((segment_jobs territories ner splitter gazette.source_text).map
        Prod.snd).Perm
      ((splitter gazette.source_text).map (fun c =>
        pyRStrip (firstLine (pyLStrip gazette.source_text)) ++ "\n" ++ c)) := by
  unfold get_gazette_segments at h
  have hperm :
      ((segment_jobs territories ner splitter gazette.source_text).map
        Prod.snd).Perm
      ((splitter gazette.source_text).map (fun c =>
        pyRStrip (firstLine (pyLStrip gazette.source_text)) ++ "\n" ++ c)) := by
    have h1 : (segment_jobs territories ner splitter gazette.source_text).map
        Prod.snd = allTexts (split_text_by_territory territories ner splitter
          gazette.source_text) := jobs_map_snd _
    have h2 := allTexts_foldl_insertAppend
      ((splitter gazette.source_text).map (process_segment territories ner
        (pyRStrip (firstLine (pyLStrip gazette.source_text))))) []
    have h3 : split_text_by_territory territories ner splitter
        gazette.source_text =
      ((splitter gazette.source_text).map (process_segment territories ner
        (pyRStrip (firstLine (pyLStrip gazette.source_text))))).foldl
        (fun m r => insertAppend m r.1 r.2) [] := rfl
    have h4 : (((splitter gazette.source_text).map (process_segment territories
        ner (pyRStrip (firstLine (pyLStrip gazette.source_text))))).map
        Prod.snd) = (splitter gazette.source_text).map (fun c =>
          pyRStrip (firstLine (pyLStrip gazette.source_text)) ++ "\n" ++ c) := by
      rw [List.map_map]
      apply List.map_congr_left
      intro c _
      simp only [Function.comp]
      unfold process_segment
      cases resolveTerritory territories (ner c)
      rfl
    rw [h1, h3]
    rw [allTexts_nil, List.nil_append, h4] at h2
    exact h2
  refine ⟨?_, ?_, hperm⟩
  · have hl := collectResults_ok_length _ _ _ h
    have hj : (segment_jobs territories ner splitter
        gazette.source_text).length = (splitter gazette.source_text).length := by
      have := hperm.length_eq
      simpa using this
    exact hl.trans hj
  · exact collectResults_ok_map _ _ _
      (fun j s hj => (build_segment_ok_fields _ _ _ _ _ hj).2.1) _ _ h

/-- The two segments actually built on the C2 input. -/
def c2Segs : List Gazette :=
  (get_gazette_segments exRegistry exNer c2Splitter exGazette).toOption.getD []

/-- C2 witness: the amended per-chunk count at the concrete two-chunk
input. -/
theorem c2_one_segment_per_chunk_witness :
    c2Segs.length = (c2Splitter exGazette.source_text).length :=
  (c2_one_segment_per_chunk exRegistry exNer c2Splitter exGazette c2Segs
    rfl).1

/-! ## Claim C3: excerpt id derivation -/

/-- A matched document with two raw highlight fragments differing only in
internal whitespace, which normalise to the same stored excerpt text. -/
def c3Doc : HighlightDoc := ⟨exGazette, ["a  b", "a b"]⟩

/-- C3 counterexample: the claim says records with the same source checksum
and the same stored excerpt text always get the same id. These two records
store the same `("a b", "abc123")` pair yet their ids differ, because the
id hashes the raw fragment before whitespace normalisation. -/
theorem c3_counterexample :
    ((process_document "tema" c3Doc).map
      (fun r => (r.excerpt, r.source_file_checksum))) =
      [("a b", "abc123"), ("a b", "abc123")] ∧
    ((process_document "tema" c3Doc).map (fun r => r.excerpt_id)).Nodup := by
  decide

/-- C3 (amended): every record's `excerpt_id` is the matched document's
`file_checksum`, an underscore, and the MD5 hex digest of the raw highlight
fragment (before whitespace normalisation), while the stored `excerpt` is
the normalised fragment; the id is a deterministic function of
`(file_checksum, raw fragment)`, so reprocessing the same document and
query reproduces identical ids. -/
theorem c3_excerpt_id_from_raw (title : String) (d : HighlightDoc) :
    ((process_document title d).map (fun r => r.excerpt_id) =
      d.highlights.map (fun raw =>
        d.gazette.file_checksum ++ "_" ++ md5Hex (utf8Bytes raw))) ∧
    ((process_document title d).map (fun r => r.excerpt) =
      d.highlights.map preprocess_excerpt) ∧
    (∀ g g' : Gazette, ∀ e : String, g.file_checksum = g'.file_checksum →
      generate_excerpt_id e g = generate_excerpt_id e g') := by
  refine ⟨?_, ?_, ?_⟩
  · rw [show process_document title d = d.highlights.map _ from rfl,
      List.map_map]
    rfl
  · rw [show process_document title d = d.highlights.map _ from rfl,
      List.map_map]
    rfl
  · intro g g' e hg
    unfold generate_excerpt_id
    rw [hg]

/-- C3 witness: two gazettes sharing the checksum `abc123` give the same id
to the same raw fragment. -/
theorem c3_excerpt_id_from_raw_witness :
    generate_excerpt_id "a b" exGazette = generate_excerpt_id "a b" exGazette2 :=
  (c3_excerpt_id_from_raw "tema" c3Doc).2.2 exGazette exGazette2 "a b" rfl

/-! ## Claim C4: segment checksum vs trimmed text -/

/-- C4 counterexample: building a segment from the text `" x"` stores the
trimmed `"x"` as `source_text` but computes the checksum over the untrimmed
`" x"`, so the checksum is not the MD5 of the trimmed final text. -/
theorem c4_counterexample :
    (build_segment exRegistry "GO-Goiânia" " x" exGazette).toOption.map
      (fun s => s.file_checksum == get_checksum s.source_text) = some false := by
  decide

/-- C4 (amended): a built segment's `file_checksum` is the MD5 hex digest
of the untrimmed assembled text, while `source_text` stores the trimmed
text; the checksum therefore equals the MD5 of the stored `source_text`
exactly when the assembled text is already trimmed. -/
theorem c4_checksum_of_untrimmed_text (territories : List TerritoryRec)
    (slug txt : String) (g s : Gazette)
    (h : build_segment territories slug txt g = .ok s) :
    s.file_checksum = get_checksum txt ∧ s.source_text = pyStrip txt ∧
    (pyStrip txt = txt → s.file_checksum = get_checksum s.source_text) := by
  obtain ⟨hck, hsrc, _, _⟩ := build_segment_ok_fields territories slug txt g s h
  refine ⟨hck, hsrc, fun htrim => ?_⟩
  rw [hck, hsrc, htrim]

/-- The segment built from the already-trimmed text `"x"`. -/
def c4Seg : Gazette :=
  (build_segment exRegistry "GO-Goiânia" "x" exGazette).toOption.getD exGazette

/-- C4 witness: on the already-trimmed input `"x"` the checksum does match
the stored text. -/
theorem c4_checksum_of_untrimmed_text_witness :
    c4Seg.file_checksum = get_checksum c4Seg.source_text :=
  (c4_checksum_of_untrimmed_text exRegistry "GO-Goiânia" "x" exGazette c4Seg
    rfl).2.2 rfl

/-! ## Claim C5: LookupFailure isolation -/

/-- A splitter whose second chunk mentions no registry town, so that chunk
resolves to the association fallback slug, which is absent from
`exRegistry`. -/
def c5Splitter : String → List String :=
  fun _ => ["bloco Goiânia fim", "bloco generico"]

/-- C5 counterexample: the claim says only the failing segment is dropped
while its sibling (the Goiânia chunk) is still indexed and its id returned.
In fact the lookup failure escapes `get_gazette_segments`, the whole
gazette is aborted inside `process_gazette`, and the batch returns no id at
all for it. -/
theorem c5_counterexample :
    extract_text_from_gazettes exRegistry exNer c5Splitter [exGazette] = [] ∧
    (get_gazette_segments exRegistry exNer c5Splitter exGazette).toOption
      = none := by decide

/-- C5 (amended): a territory-lookup failure for one segment aborts the
whole gazette it belongs to (no sibling segment of that gazette is indexed
and the gazette contributes no ids), but `extract_text_from_gazettes`
catches each gazette's failure, never raises, and still returns the ids of
the other gazettes of the batch. -/
theorem c5_failure_isolated_per_gazette (territories : List TerritoryRec)
    (ner : String → List Entity) (splitter : String → List String)
    (gs1 gs2 : List Gazette) (g : Gazette) (e : String)
    (h : try_process_gazette_file territories ner splitter g = .error e) :
    extract_text_from_gazettes territories ner splitter (gs1 ++ g :: gs2) =
      extract_text_from_gazettes territories ner splitter gs1 ++
        extract_text_from_gazettes territories ner splitter gs2 := by
  unfold extract_text_from_gazettes
  rw [List.flatMap_append, List.flatMap_cons, h]
  simp

/-- C5 witness: in a batch of a processable plain gazette followed by the
failing aggregated one, the failing gazette is skipped and the rest of the
batch is still returned. -/
theorem c5_failure_isolated_per_gazette_witness :
    extract_text_from_gazettes exRegistry exNer c5Splitter
        ([exPlainGazette] ++ exGazette :: []) =
      extract_text_from_gazettes exRegistry exNer c5Splitter [exPlainGazette] ++
        extract_text_from_gazettes exRegistry exNer c5Splitter [] :=
  c5_failure_isolated_per_gazette exRegistry exNer c5Splitter
    [exPlainGazette] [] exGazette ("LookupFailure: GO-" ++ associationName)
    rfl

/-! ## Claim C6: 200-character length filter -/

/-- C6: every record indexed by `process_theme_query` has a normalised
excerpt of at least 200 characters, and the returned ids are exactly the
ids of those indexed records — a shorter excerpt contributes neither a
record nor an id, and the function is total (no error). -/
theorem c6_length_filter (search : EsQuery → List HighlightDoc)
    (analyze : String → List String) (query : ThemeQuery)
    (gazette_ids : List String) :
    (∀ r ∈ (process_theme_query search analyze query gazette_ids).1,
      200 ≤ r.excerpt.length) ∧
    (process_theme_query search analyze query gazette_ids).2 =
      ((process_theme_query search analyze query gazette_ids).1).map
        (fun r => r.excerpt_id) := by
  constructor
  · intro r hr
    have hr2 : r ∈ ((batched gazette_ids 500).flatMap (fun batch =>
        get_excerpts_from_gazettes_with_themed_query search analyze query
          batch)).filter (fun e => !(e.excerpt.length < 200)) := hr
    have hp := (List.mem_filter.mp hr2).2
    simp only [Bool.not_eq_true', decide_eq_false_iff_not, Nat.not_lt] at hp
    exact hp
  · rfl

/-- A 250-character fragment (kept by the filter). -/
def c6LongText : String := String.mk (List.replicate 250 'a')

/-- A 150-character fragment (dropped by the filter). -/
def c6ShortText : String := String.mk (List.replicate 150 'b')

/-- A search hit carrying one long and one short highlight. -/
def c6Doc : HighlightDoc := ⟨exGazette, [c6LongText, c6ShortText]⟩

/-- A stub search backend returning the single hit. -/
def c6Search : EsQuery → List HighlightDoc := fun _ => [c6Doc]

/-- A stub tokenizer: one token per term. -/
def c6Analyze : String → List String := fun s => [s]

/-- A one-term theme query. -/
def c6Query : ThemeQuery := ⟨"tema", [[["termo"]]]⟩

/-- The single record the C6 run keeps (the 150-character fragment is
dropped). -/
def c6Rec : ExcerptRecord :=
  (process_theme_query c6Search c6Analyze c6Query ["abc123"]).1.headD default

/-- C6 witness: the kept record of the concrete run has a long-enough
excerpt; the 150-character sibling fragment produced no record. -/
theorem c6_length_filter_witness : 200 ≤ c6Rec.excerpt.length :=
  (c6_length_filter c6Search c6Analyze c6Query ["abc123"]).1 c6Rec (by decide)

/-! ## Claim C7: query builder shape -/

/-- C7: for one macro-set of two term-sets with two synonym terms each, the
built query's `must` is exactly one macro-level OR over exactly one
proximity block (`slop = 20`, unordered) combining two phrase-alternation
OR blocks, each offering two phrases, each phrase a zero-slop in-order
`span_near` over the tokens of one synonym term; the query filters to the
supplied ids and attaches the highlight request with empty tag lists. -/
theorem c7_query_shape (analyze : String → List String)
    (ids : List String) (title t11 t12 t21 t22 : String) :
    get_es_query_from_themed_query analyze
        ⟨title, [[[t11, t12], [t21, t22]]]⟩ ids =
      { must := [.spanOr [.spanNear
          [.spanOr [.spanNear ((analyze t11).map (fun tok =>
              .spanTerm "source_text.with_stopwords" tok)) 0 true,
            .spanNear ((analyze t12).map (fun tok =>
              .spanTerm "source_text.with_stopwords" tok)) 0 true],
           .spanOr [.spanNear ((analyze t21).map (fun tok =>
              .spanTerm "source_text.with_stopwords" tok)) 0 true,
            .spanNear ((analyze t22).map (fun tok =>
              .spanTerm "source_text.with_stopwords" tok)) 0 true]]
          20 false]]
        filter_ids := ids
        size := 10
        highlight_field := "source_text.with_stopwords"
        highlight :=
          { htype := "unified"
            fragment_size := 2000
            number_of_fragments := 10
            pre_tags := [""]
            post_tags := [""] } } := rfl

/-! ## Claim C8: is_fragmented flag -/

/-- A splitter producing a single chunk, so the single territory group has
exactly one member. -/
def c8Splitter : String → List String := fun _ => ["bloco um Goiânia fim"]

/-- C8 counterexample: the claim says a segment whose group has exactly one
chunk has `is_fragmented = false`; the code builds the one-chunk segment
with `is_fragmented = true` (the flag is hardcoded). -/
theorem c8_counterexample :
    ((split_text_by_territory exRegistry exNer c8Splitter
        exGazette.source_text).map (fun p => p.2.length)) = [1] ∧
    (get_gazette_segments exRegistry exNer c8Splitter exGazette).toOption.map
      (fun segs => segs.map (fun s => s.is_fragmented)) = some [true] := by
  decide

/-- C8 (amended): `build_segment` sets `is_fragmented = true` for every
segment it builds, regardless of how many chunks its territory group
contains. -/
theorem c8_always_fragmented (territories : List TerritoryRec)
    (slug txt : String) (g s : Gazette)
    (h : build_segment territories slug txt g = .ok s) :
    s.is_fragmented = true :=
  (build_segment_ok_fields territories slug txt g s h).2.2.1

/-- The segment built from one single text for Anápolis. -/
def c8Seg : Gazette :=
  (build_segment exRegistry "GO-Anápolis" "y" exGazette).toOption.getD
    exGazette

/-- C8 witness: the concrete single-text segment carries the hardcoded
flag. -/
theorem c8_always_fragmented_witness : c8Seg.is_fragmented = true :=
  c8_always_fragmented exRegistry "GO-Anápolis" "y" exGazette c8Seg rfl

/-! ## Claim C10: batch and retrieval limits -/

/-- A flat-mapped list is no longer than the item count times the
per-item bound. -/
theorem flatMap_length_le (f : α → List β) (k : Nat) (l : List α)
    (hf : ∀ a ∈ l, (f a).length ≤ k) :
    (l.flatMap f).length ≤ l.length * k := by
  induction l with
  | nil => simp
  | cons a t ih =>
    simp only [List.flatMap_cons, List.length_append, List.length_cons]
    have h1 := hf a (by simp)
    have h2 := ih (fun x hx => hf x (List.mem_cons_of_mem a hx))
    calc (f a).length + (t.flatMap f).length
        ≤ k + t.length * k := Nat.add_le_add h1 h2
      _ = (t.length + 1) * k := by ring

/-- Every chunk the fuel-driven worker yields has at most `n + 1`
elements. -/
theorem chunksOfAux_mem_length (n : Nat) :
    ∀ (fuel : Nat) (l : List α), l.length ≤ fuel →
      ∀ c ∈ chunksOfAux n fuel l, c.length ≤ n + 1 := by
  intro fuel
  induction fuel with
  | zero =>
    intro l hl c hc
    cases l with
    | nil => simp [chunksOfAux] at hc
    | cons a t => simp at hl
  | succ m ih =>
    intro l hl c hc
    cases l with
    | nil => simp [chunksOfAux] at hc
    | cons a t =>
      simp only [chunksOfAux, List.mem_cons] at hc
      rcases hc with hc | hc
      · subst hc
        simp only [List.length_cons]
        have ht := List.length_take_le n t
        omega
      · apply ih (t.drop n) ?_ c hc
        rw [List.length_drop]
        simp only [List.length_cons] at hl
        omega

/-- Every batch `batched` yields has at most `n` elements (for the
positive `n` the code uses). -/
theorem batched_mem_length (l : List α) (n : Nat) (hn : 1 ≤ n)
    (c : List α) (hc : c ∈ batched l n) : c.length ≤ n := by
  have h := chunksOfAux_mem_length (n - 1) l.length l (Nat.le_refl _) c hc
  omega

/-- C10: every search request issued for a theme query filters to a batch
of at most 500 gazette ids, asks for at most 10 documents and at most 10
highlight fragments of 2000 characters each; consequently, when the
backend honours the requested limits, at most `10 * 10 = 100` excerpt
candidates arise per batch, and documents beyond the requested 10 yield
none. -/
theorem c10_request_limits (analyze : String → List String)
    (query : ThemeQuery) (gazette_ids : List String) (r : EsQuery)
    (hr : r ∈ theme_query_requests analyze query gazette_ids) :
    r.filter_ids.length ≤ 500 ∧ r.size = 10 ∧
    r.highlight.number_of_fragments = 10 ∧
    r.highlight.fragment_size = 2000 ∧
    (∀ docs : List HighlightDoc, docs.length ≤ r.size →
      (∀ d ∈ docs, d.highlights.length ≤ r.highlight.number_of_fragments) →
      (docs.flatMap (process_document query.title)).length ≤ 100) := by
  obtain ⟨batch, hb, hrq⟩ := List.mem_map.mp hr
  subst hrq
  refine ⟨?_, rfl, rfl, rfl, ?_⟩
  · exact batched_mem_length gazette_ids 500 (by omega) batch hb
  · intro docs hd hh
    have h1 : ∀ d ∈ docs, (process_document query.title d).length ≤ 10 := by
      intro d hdm
      have hlen : (process_document query.title d).length
          = d.highlights.length := by
        simp [process_document]
      rw [hlen]
      exact hh d hdm
    have h2 := flatMap_length_le (process_document query.title) 10 docs h1
    have h3 : docs.length ≤ 10 := hd
    have h4 : docs.length * 10 ≤ 100 := by omega
    omega

/-- A stub tokenizer for the C10 instance. -/
def c10Analyze : String → List String := fun s => [s]

/-- A one-term theme query for the C10 instance. -/
def c10Query : ThemeQuery := ⟨"tema dez", [[["licitação"]]]⟩

/-- C10 witness: the single request issued for a one-id batch respects the
id and size limits. -/
theorem c10_request_limits_witness :
    (get_es_query_from_themed_query c10Analyze c10Query
      ["g1"]).filter_ids.length ≤ 500 ∧
    (get_es_query_from_themed_query c10Analyze c10Query ["g1"]).size = 10 :=
  have h := c10_request_limits c10Analyze c10Query ["g1"]
    (get_es_query_from_themed_query c10Analyze c10Query ["g1"])
    (List.Mem.head _)
  ⟨h.1, h.2.1⟩
